import Mathlib

/-!
Verification of the smart offset thermostat controller.

The Python sources (`controller.py`, `storage.py`, `climate.py`) are embedded
shallowly: floats become rationals, the Home Assistant state machine becomes
explicit inputs per tick, and the offset store becomes fields of the controller
state.  Every definition below mirrors a concrete function of the source; the
few constants that the source references but whose defining module is not part
of the checkout are modelled from the specification and marked as such.
-/

namespace SOT

/-- Executable maximum on rationals (value-equal to `max`). -/
def maxQ (a b : ℚ) : ℚ := if a ≤ b then b else a

/-- Executable minimum on rationals (value-equal to `min`). -/
def minQ (a b : ℚ) : ℚ := if a ≤ b then a else b

/-- Executable absolute value on rationals (value-equal to `|·|`). -/
def absQ (a : ℚ) : ℚ := if a < 0 then -a else a

/-- Executable maximum on integers (value-equal to `max`). -/
def maxZ (a b : ℤ) : ℤ := if a ≤ b then b else a

/-- Executable minimum on integers (value-equal to `min`). -/
def minZ (a b : ℤ) : ℤ := if a ≤ b then a else b

/-- Python `round` (banker's rounding, half to even) on rationals. -/
def pyRound (q : ℚ) : ℤ :=
  let f := Rat.floor q
  let r := q - f
  if r < 1/2 then f
  else if 1/2 < r then f + 1
  else if f % 2 = 0 then f else f + 1

/-- `_clamp(v, lo, hi)` from controller.py: `max(lo, min(hi, v))`. -/
def clampQ (v lo hi : ℚ) : ℚ := maxQ lo (minQ hi v)

/-- `_round_step(v, step)` from controller.py. -/
def roundStep (v step : ℚ) : ℚ :=
  if step ≤ 0 then v else (pyRound (v / step) : ℚ) * step

/-- `round(e, 3)` used for `last_error` in `_tick`. -/
def round3 (q : ℚ) : ℚ := (pyRound (q * 1000) : ℚ) / 1000

/-- The `1e-9` slack used in the `>= step_min - 1e-9` comparisons. -/
def eps9 : ℚ := 1 / 1000000000

/-- Diagnostic action tags assigned to `self.last_action`. -/
inductive ActionTag where
  | init
  | window_open
  | boost
  | hold
  | deadband_rebase
  | deadband_init
  | stable_learn
  | set_temperature
  | skipped_no_change
  | cooldown
  | skipped_unavailable_entities
  | skipped_invalid_room_temp
  | stuck_overtemp_down
  | reset_offset
  | set_failed
  deriving DecidableEq

/-- Resolved configuration options (the `self.opt(...)`/default chains of the
source, evaluated).  The fields `MIN_OFFSET` and `MAX_OFFSET` are
Modelled from the spec: the source references module constants `MIN_OFFSET`
and `MAX_OFFSET` (offset clamping bounds, spec §3/§4.3) whose defining lines
of `const.py` are not present in the checkout; the spec treats them as fixed
configuration constants with `MIN_OFFSET ≤ 0 ≤ MAX_OFFSET`, so they are
carried here as symbolic parameters.  Likewise `ttt_alpha`/`ttt_soft_min`
correspond to the spec's `ttt-alpha`/`ttt-soft-min` configuration entries
(`CONF_TTT_ALPHA`/`CONF_TTT_SOFT_MIN` in the source). -/
structure Config where
  deadband : ℚ
  step_max : ℚ
  step_min : ℚ
  trv_min : ℚ
  trv_max : ℚ
  cooldown_sec : ℚ
  learn_rate_fast : ℚ
  min_offset_change : ℚ
  enable_learning : Bool
  no_learn_summer : Bool
  window_no_learn_min : ℚ
  room_target : ℚ
  heating_alpha : ℚ
  overshoot_threshold : ℚ
  predict_minutes : ℚ
  stuck_enable : Bool
  stuck_seconds : ℚ
  stuck_min_drop : ℚ
  stuck_step : ℚ
  ttt_alpha : ℚ
  ttt_soft_min : ℚ
  boost_duration_sec : Option ℤ
  MIN_OFFSET : ℚ
  MAX_OFFSET : ℚ
  deriving DecidableEq

/-- `self._heat_episode` dictionary of `_maybe_start_heat_episode`. -/
structure HeatEpisode where
  t0 : ℚ
  room0 : ℚ
  target0 : ℚ
  e0 : ℚ
  max_room : ℚ
  deriving DecidableEq

/-- Controller state: the mutable attributes of `SmartOffsetController`
together with the per-entry record of `OffsetStorage` (fields prefixed
`store_`, plus `offset` which is `storage.get_offset`). -/
structure State where
  last_set : Option ℚ
  last_change : ℚ
  last_action : ActionTag
  last_error : Option ℚ
  last_target_trv : Option ℚ
  change_count : ℕ
  boost_active : Bool
  boost_until : ℚ
  window_is_open : Bool
  window_open_since : Option ℚ
  last_room_target : Option ℚ
  force_next_control : Bool
  stuck_active : Bool
  stuck_ref_temp : Option ℚ
  stuck_ref_time : Option ℚ
  stuck_bias : ℚ
  stable_since : Option ℚ
  stable_target : Option ℚ
  stable_last_set : Option ℚ
  heating_rate : ℚ
  overshoot_count : ℤ
  prev_room_temp : Option ℚ
  prev_time : Option ℚ
  learn_rate_slow : ℚ
  last_offset_update : ℚ
  last_heating_rate_save : ℚ
  heat_episode : Option HeatEpisode
  minutes_per_degree : ℚ
  offset : ℚ
  store_overshoot_count : ℤ
  store_heating_rate : ℚ
  store_minutes_per_degree : ℚ
  deriving DecidableEq

/-- A sensor reading: `none` = entity absent, `some none` = state present but
not parseable as a number (`_to_float` returns `None`), `some (some t)` =
numeric value `t`. -/
def Reading := Option (Option ℚ)

/-- External inputs consumed by one tick. -/
structure Inputs where
  climate_present : Bool
  room_reading : Option (Option ℚ)
  window_states : List (Option String)
  month : ℕ
  now : ℚ

/-- `str.lower()` on the window-state strings (character-wise lowercasing). -/
def pyLower (s : String) : String := String.mk (s.data.map Char.toLower)

/-- Truthiness test for window sensor states in
`_handle_window_condition`: `str(state).lower() in ("on","open","true","1")`. -/
def isOpenState (st : Option String) : Bool :=
  match st with
  | none => false
  | some s => ["on", "open", "true", "1"].contains (pyLower s)

/-- `_set_trv_temperature`: skip if within 0.01 of the last commanded value,
otherwise issue the service call and record it.  Returns
(success, new state, actuation calls issued). -/
def setTrvTemperature (now temp : ℚ) (s : State) : Bool × State × List ℚ :=
  match s.last_set with
  | some ls =>
    if absQ (temp - ls) < 1/100 then (false, s, [])
    else
      (true,
       { s with last_set := some temp, last_change := now,
                change_count := s.change_count + 1,
                force_next_control := false }, [temp])
  | none =>
      (true,
       { s with last_set := some temp, last_change := now,
                change_count := s.change_count + 1,
                force_next_control := false }, [temp])

/-- `_cancel_boost`. -/
def cancelBoost (s : State) : State :=
  { s with boost_active := false, boost_until := 0 }

/-- `_reset_stability_tracking`. -/
def resetStabilityTracking (s : State) : State :=
  { s with stable_since := none, stable_target := none, stable_last_set := none }

/-- The guard `self.last_set is None or abs(t - self.last_set) >= (step_min - 1e-9)`
used before actuating in the window / boost / deadband handlers. -/
def shouldSend (last_set : Option ℚ) (t step_min : ℚ) : Bool :=
  match last_set with
  | none => true
  | some v => decide (step_min - eps9 ≤ absQ (t - v))

/-- `start_boost`: resolve the configured duration (`opt(...) or DEFAULT`,
so a missing or zero value falls back to 300), clamp it with
`max(30, min(duration, 3600))`, and arm the boost. -/
def startBoost (cfg : Config) (now : ℚ) (s : State) : State :=
  let raw : ℤ :=
    match cfg.boost_duration_sec with
    | none => 300
    | some d => if d = 0 then 300 else d
  let duration : ℤ := maxZ 30 (minZ raw 3600)
  let s := cancelBoost s
  { s with boost_active := true, boost_until := now + (duration : ℚ) }

/-- `reset_offset`: persist `0.0` and record the action. -/
def resetOffset (s : State) : State :=
  { s with offset := 0, last_action := ActionTag.reset_offset }

/-- `_get_sensor_data`: fails (returning the diagnostic tag it records) when
the climate or room entity is absent or the room state does not parse. -/
def getSensorData (cfg : Config) (inp : Inputs) : Except ActionTag (ℚ × ℚ) :=
  if inp.climate_present = false then Except.error ActionTag.skipped_unavailable_entities
  else
    match inp.room_reading with
    | none => Except.error ActionTag.skipped_unavailable_entities
    | some none => Except.error ActionTag.skipped_invalid_room_temp
    | some (some t) => Except.ok (t, cfg.room_target)

/-- `_handle_window_condition` (the per-tick part: compute whether any window
is open, and if so cancel boost, target `trv_min`, actuate unless within
`step_min`, tag `window_open`, zero the stuck bias).  Listener plumbing is
event wiring and out of scope. -/
def handleWindowCondition (cfg : Config) (inp : Inputs) (s : State) :
    Bool × State × List ℚ :=
  let wopen := inp.window_states.any isOpenState
  let s := { s with window_is_open := wopen }
  if wopen = false then (false, s, [])
  else
    let s := cancelBoost s
    let t_trv := cfg.trv_min
    let s := { s with last_target_trv := some t_trv }
    let p :=
      if shouldSend s.last_set t_trv cfg.step_min then
        let r := setTrvTemperature inp.now t_trv s
        (r.2.1, r.2.2)
      else (s, [])
    (true, { p.1 with last_action := ActionTag.window_open, stuck_bias := 0 }, p.2)

/-- `_handle_boost_condition`. -/
def handleBoostCondition (cfg : Config) (inp : Inputs) (s : State) :
    Bool × State × List ℚ :=
  if s.boost_active = false ∨ s.boost_until ≤ inp.now then (false, s, [])
  else
    let s := resetStabilityTracking s
    let s := { s with stuck_bias := 0 }
    let t_trv := clampQ cfg.trv_max cfg.trv_min cfg.trv_max
    let s := { s with last_target_trv := some t_trv }
    let p :=
      if shouldSend s.last_set t_trv cfg.step_min then
        let r := setTrvTemperature inp.now t_trv s
        (r.2.1, r.2.2)
      else (s, [])
    (true, { p.1 with last_action := ActionTag.boost }, p.2)

/-- `_handle_stable_learning`: after a 900 s dwell at the same target with a
commanded setpoint, nudge the offset 25% towards
`clamp(last_set - room, MIN_OFFSET, MAX_OFFSET)` when the difference exceeds
`OFFSET_LEARN_THRESHOLD = 0.5`, persisting only across the
`min_offset_change` hysteresis. -/
def handleStableLearning (cfg : Config) (room target : ℚ) (inp : Inputs)
    (s : State) : State :=
  let is_summer : Bool := cfg.no_learn_summer && decide (6 ≤ inp.month ∧ inp.month ≤ 8)
  let long_window_open : Bool :=
    s.window_is_open &&
      (match s.window_open_since with
       | some t => decide (cfg.window_no_learn_min * 60 ≤ inp.now - t)
       | none => false)
  if cfg.enable_learning = false ∨ is_summer = true ∨ long_window_open = true ∨ s.last_set = none
  then s
  else
    match s.last_set with
    | none => s
    | some ls =>
      if s.stable_since = none ∨ s.stable_target ≠ some target then
        { s with stable_since := some inp.now, stable_target := some target,
                 stable_last_set := s.last_set }
      else
        match s.stable_since with
        | none => s
        | some since =>
          if 900 ≤ inp.now - since then
            let implied := clampQ (ls - room) cfg.MIN_OFFSET cfg.MAX_OFFSET
            let cur := s.offset
            let s :=
              if 1/2 < absQ (implied - cur) then
                let new := cur + 1/4 * (implied - cur)
                if cfg.min_offset_change ≤ absQ (new - cur) then
                  { s with offset := new, last_action := ActionTag.stable_learn,
                           last_offset_update := inp.now }
                else s
              else s
            resetStabilityTracking { s with stuck_bias := 0 }
          else s

/-- `_handle_deadband`: inside the deadband either rebase/initialise the
baseline setpoint, or hold the last commanded value and run stable learning. -/
def handleDeadband (cfg : Config) (room target : ℚ) (inp : Inputs) (s : State)
    (deadband : ℚ) : Bool × State × List ℚ :=
  let e := target - room
  if deadband < absQ e then (false, s, [])
  else
    let offset := s.offset
    let baseline := roundStep (clampQ (target + offset) cfg.trv_min cfg.trv_max) cfg.step_min
    let target_changed :=
      match s.last_room_target with
      | some t => decide (eps9 < absQ (target - t))
      | none => false
    let s := { s with last_room_target := some target }
    if target_changed = true ∨ s.last_set = none then
      let s := { s with last_target_trv := some baseline }
      let p :=
        if shouldSend s.last_set baseline cfg.step_min then
          let r := setTrvTemperature inp.now baseline s
          ({ r.2.1 with last_action :=
              if target_changed then ActionTag.deadband_rebase else ActionTag.deadband_init },
           r.2.2)
        else (s, [])
      (true, resetStabilityTracking p.1, p.2)
    else
      let s := { s with last_target_trv := s.last_set, last_action := ActionTag.hold }
      (true, handleStableLearning cfg room target inp s, [])

/-- `_maybe_start_heat_episode`. -/
def maybeStartHeatEpisode (now room target deadband : ℚ) (s : State) : State :=
  let e := target - room
  if e ≤ deadband then s
  else if s.window_is_open = true ∨ s.boost_active = true then s
  else if s.heat_episode.isSome then s
  else { s with heat_episode := some ⟨now, room, target, e, room⟩ }

/-- `_update_heat_episode`. -/
def updateHeatEpisode (room : ℚ) (s : State) : State :=
  match s.heat_episode with
  | none => s
  | some ep => { s with heat_episode := some { ep with max_room := maxQ ep.max_room room } }

/-- `_maybe_finish_heat_episode`: on reaching the target, blend the measured
minutes-per-degree (clamped to `[2, 120]`) into the EMA and persist it. -/
def maybeFinishHeatEpisode (cfg : Config) (now room target deadband : ℚ)
    (s : State) : State :=
  match s.heat_episode with
  | none => s
  | some ep =>
    if room + deadband < target then s
    else
      let e0 := maxQ (1/10) ep.e0
      let minutes := (now - ep.t0) / 60
      let mpd := clampQ (minutes / e0) 2 120
      let m := cfg.ttt_alpha * mpd + (1 - cfg.ttt_alpha) * s.minutes_per_degree
      { s with minutes_per_degree := m, store_minutes_per_degree := m,
               heat_episode := none }

/-- The overshoot-detection block of `_handle_active_control` (lines 633-644):
increment the stored counter, and past 3 shrink the slow learning rate and
zero the controller's counter. -/
def overshootStep (cfg : Config) (room target : ℚ) (s : State) : State :=
  if target + cfg.overshoot_threshold < room then
    let nc := s.store_overshoot_count + 1
    let s := { s with store_overshoot_count := nc, overshoot_count := nc }
    if 3 < s.overshoot_count then
      { s with learn_rate_slow := maxQ (1/100) (s.learn_rate_slow * (9/10)),
               overshoot_count := 0 }
    else s
  else s

/-- The active-learning block of `_handle_active_control` (lines 646-671):
outside the deadband move the offset by `rate × |e|` towards the error,
clamped to `[MIN_OFFSET, MAX_OFFSET]`, persisting only across the
`min_offset_change` hysteresis. -/
def activeLearnStep (cfg : Config) (e now : ℚ) (s : State) : State :=
  let learn_rate := if cfg.deadband * 2 < absQ e then cfg.learn_rate_fast else s.learn_rate_slow
  if cfg.enable_learning = true ∧ cfg.deadband < absQ e then
    let dir : ℚ := if 0 < e then 1 else -1
    let new := clampQ (s.offset + dir * learn_rate * absQ e) cfg.MIN_OFFSET cfg.MAX_OFFSET
    if cfg.min_offset_change ≤ absQ (new - s.offset) then
      { s with offset := new, last_offset_update := now }
    else s
  else s

/-- The proportional correction with TTT soft-landing and overshoot-prevention
damping (`_handle_active_control` lines 673-702). -/
def computeCorrection (cfg : Config) (e : ℚ) (s : State) : ℚ :=
  let correction := clampQ (1/2 * e) (-cfg.step_max) cfg.step_max
  let correction :=
    if 0 < e then
      let predicted_minutes_ttt := e * s.minutes_per_degree
      if predicted_minutes_ttt < cfg.ttt_soft_min then
        correction * clampQ (predicted_minutes_ttt / cfg.ttt_soft_min) (3/10) 1
      else correction
    else correction
  if 0 < e ∧ 1/1000 < s.heating_rate then
    let predicted_time := e / s.heating_rate
    if predicted_time < cfg.predict_minutes then
      correction * maxQ (1/2) (1 - (cfg.predict_minutes - predicted_time) / cfg.predict_minutes)
    else correction
  else correction

/-- `_handle_stuck_detection`.  The Python guard `if self._stuck_ref_time and ...`
is truthiness: a reference time of `None` or `0.0` skips the evaluation. -/
def handleStuckDetection (cfg : Config) (room e now t_trv : ℚ) (s : State) :
    State × ℚ :=
  if e < -cfg.deadband then
    if s.stuck_active = false then
      ({ s with stuck_active := true, stuck_ref_temp := some room,
                stuck_ref_time := some now }, t_trv)
    else
      match s.stuck_ref_time with
      | some rt =>
        if rt ≠ 0 ∧ cfg.stuck_seconds ≤ now - rt then
          let ref := s.stuck_ref_temp.getD room
          let p :=
            if ref - cfg.stuck_min_drop ≤ room then
              ({ s with stuck_bias := minQ (s.stuck_bias + cfg.stuck_step) 4,
                        last_action := ActionTag.stuck_overtemp_down },
               roundStep (clampQ (t_trv - cfg.stuck_step) cfg.trv_min cfg.trv_max) cfg.step_min)
            else (s, t_trv)
          ({ p.1 with stuck_ref_temp := some room, stuck_ref_time := some now }, p.2)
        else (s, t_trv)
      | none => (s, t_trv)
  else
    ({ s with stuck_active := false, stuck_ref_temp := none,
              stuck_ref_time := none, stuck_bias := 0 }, t_trv)

/-- `_update_heating_rate`. -/
def updateHeatingRate (cfg : Config) (room now : ℚ) (s : State) : State :=
  match s.prev_room_temp, s.prev_time with
  | some pr, some pt =>
    let dt_min := (now - pt) / 60
    if dt_min ≤ 0 then s
    else if dt_min < 1/4 then s
    else if 30 < dt_min then s
    else
      let dT := room - pr
      if dT ≤ 0 then s
      else
        let rate := dT / dt_min
        let s := { s with heating_rate :=
          cfg.heating_alpha * rate + (1 - cfg.heating_alpha) * s.heating_rate }
        if 300 ≤ now - s.last_heating_rate_save then
          { s with last_heating_rate_save := now, store_heating_rate := s.heating_rate }
        else s
  | _, _ => s

/-- `_handle_offset_decay`: after more than a day without an offset update,
shrink a large-enough offset towards zero, subject to the hysteresis. -/
def handleOffsetDecay (cfg : Config) (now : ℚ) (s : State) : State :=
  if cfg.enable_learning = false ∨ s.last_offset_update ≤ 0 then s
  else
    let days := (now - s.last_offset_update) / (24 * 3600)
    if 1 < days then
      let cur := s.offset
      if 1/10 < absQ cur then
        let decay := 1/100 * days
        let mult := maxQ 0 (1 - decay)
        let new := cur * mult
        if cfg.min_offset_change ≤ absQ (new - cur) then
          { s with offset := new, last_offset_update := now }
        else s
      else s
    else s

/-- The tail of `_handle_active_control` once suppression has been passed:
actuate, tag `set_temperature` on success, update the heating rate when
actively heating, then run offset decay. -/
def activeFinish (cfg : Config) (room e now t_trv : ℚ) (s : State) :
    State × List ℚ :=
  let r := setTrvTemperature now t_trv s
  let s := if r.1 then { r.2.1 with last_action := ActionTag.set_temperature } else r.2.1
  let s :=
    if cfg.deadband < e ∧ s.window_is_open = false ∧ s.boost_active = false then
      updateHeatingRate cfg room now s
    else s
  (handleOffsetDecay cfg now s, r.2.2)

/-- The candidate-setpoint computation of `_handle_active_control`
(lines 624-727): heat-episode bookkeeping, overshoot auto-tune, active
learning, proportional correction with damping, stuck detection and bias
subtraction, and the final clamp into the device bounds.  Returns the updated
state together with the candidate `t_trv`. -/
def activeCandidate (cfg : Config) (room target : ℚ) (inp : Inputs) (s : State) :
    State × ℚ :=
  let e := target - room
  let now := inp.now
  let s := maybeStartHeatEpisode now room target cfg.deadband s
  let s := updateHeatEpisode room s
  let s := maybeFinishHeatEpisode cfg now room target cfg.deadband s
  let s := overshootStep cfg room target s
  let s := activeLearnStep cfg e now s
  let correction := computeCorrection cfg e s
  let t_trv := roundStep (target + s.offset + correction) cfg.step_min
  let p :=
    if cfg.stuck_enable = true ∧ s.window_is_open = false ∧ s.boost_active = false then
      handleStuckDetection cfg room e now t_trv s
    else (s, t_trv)
  let s := p.1
  let t_trv := p.2
  let t_trv :=
    if e < -cfg.deadband ∧ 0 < s.stuck_bias then
      roundStep (clampQ (t_trv - s.stuck_bias) cfg.trv_min cfg.trv_max) cfg.step_min
    else t_trv
  (s, clampQ t_trv cfg.trv_min cfg.trv_max)

/-- The suppression checks and actuation tail of `_handle_active_control`
(lines 727-761): record the target, skip when within `step_min` of the last
commanded value, skip during the cooldown window unless forced, otherwise
actuate and finish. -/
def activeSuppress (cfg : Config) (room e now t_trv : ℚ) (s : State) :
    State × List ℚ :=
  let s := { s with last_target_trv := some t_trv }
  match s.last_set with
  | some ls =>
    if absQ (t_trv - ls) < cfg.step_min - eps9 then
      ({ s with last_action := ActionTag.skipped_no_change }, [])
    else if now - s.last_change < cfg.cooldown_sec ∧ s.force_next_control = false then
      ({ s with last_action := ActionTag.cooldown }, [])
    else activeFinish cfg room e now t_trv s
  | none => activeFinish cfg room e now t_trv s

/-- `_handle_active_control`: the full active-control pipeline. -/
def handleActiveControl (cfg : Config) (room target : ℚ) (inp : Inputs)
    (s : State) : State × List ℚ :=
  let p := activeCandidate cfg room target inp s
  activeSuppress cfg room (target - room) inp.now p.2 p.1

/-- The `prev_*` refresh done at the end of every successful-input tick. -/
def postPrev (room now : ℚ) (s : State) : State :=
  { s with prev_room_temp := some room, prev_time := some now }

/-- Result of one `_tick`: new state, actuation calls issued, and whether the
update notification was sent to observers. -/
structure TickResult where
  state : State
  acts : List ℚ
  notified : Bool
  deriving DecidableEq

/-- `_tick`: the main control cycle with its priority arbitration. -/
def tick (cfg : Config) (inp : Inputs) (s : State) : TickResult :=
  match getSensorData cfg inp with
  | Except.error tag => ⟨{ s with last_action := tag }, [], true⟩
  | Except.ok (room, target) =>
    let e := target - room
    let s := { s with last_error := some (round3 e) }
    let w := handleWindowCondition cfg inp s
    if w.1 then ⟨postPrev room inp.now w.2.1, w.2.2, true⟩
    else
      let b := handleBoostCondition cfg inp w.2.1
      if b.1 then ⟨postPrev room inp.now b.2.1, b.2.2, true⟩
      else
        let d := handleDeadband cfg room target inp b.2.1 cfg.deadband
        if d.1 then ⟨postPrev room inp.now d.2.1, d.2.2, true⟩
        else
          let a := handleActiveControl cfg room target inp d.2.1
          ⟨postPrev room inp.now a.1, a.2, true⟩

/-- `_get_room_temperature` of the virtual climate entity (climate.py):
arithmetic mean of the valid readings among the configured room sensors,
`none` when there are no sensors or no valid readings. -/
def getRoomTemperature (readings : List (Option (Option ℚ))) : Option ℚ :=
  if readings = [] then none
  else
    let temps := readings.filterMap (fun r => r.bind id)
    if temps = [] then none
    else some (temps.sum / (temps.length : ℚ))

/-- Modelled from the spec: the claim's reading of §4.1, "room temperature is
the arithmetic mean of all currently-valid configured sensor readings", as a
value for the control tick to use.  Kept separate from the source-derived
definitions so the two can be compared. -/
def specRoomTemperature (read : String → Option (Option ℚ))
    (sensors : List String) : Option ℚ :=
  getRoomTemperature (sensors.map read)

/-- Build the controller tick's inputs from an entity-state map: the
controller reads the single configured `room_sensor_entity`
(`self.entry.data[CONF_ROOM_SENSOR]`). -/
def controllerInputs (read : String → Option (Option ℚ)) (room_sensor : String)
    (climate_present : Bool) (window_states : List (Option String))
    (month : ℕ) (now : ℚ) : Inputs :=
  ⟨climate_present, read room_sensor, window_states, month, now⟩

/-- The room temperature a tick's control logic actually uses (the `t_room`
of `_get_sensor_data`), `none` when the tick fails with a missing input. -/
def tickRoomTemp (cfg : Config) (inp : Inputs) : Option ℚ :=
  match getSensorData cfg inp with
  | Except.ok (room, _) => some room
  | Except.error _ => none

/-- One offset-writing learning operation under a fixed configuration:
active learning, stable learning, or offset decay, at arbitrary inputs. -/
def IsLearningOp (cfg : Config) (f : State → State) : Prop :=
  (∃ e now, f = activeLearnStep cfg e now) ∨
  (∃ room target inp, f = handleStableLearning cfg room target inp) ∨
  (∃ now, f = handleOffsetDecay cfg now)

/-- Bool check that along the trajectory of a sequence of state updates every
single update moves the offset by less than `c`. -/
def deltasSmall (c : ℚ) : State → List (State → State) → Bool
  | _, [] => true
  | s, f :: fs => (decide (absQ ((f s).offset - s.offset) < c)) && deltasSmall c (f s) fs

/-- The default configuration of `const.py` (with spec-modelled offset bounds
`[-5, 5]` and the spec's `ttt` defaults). -/
def cfgDefault : Config :=
  { deadband := 1/5, step_max := 1, step_min := 1/2, trv_min := 12, trv_max := 30,
    cooldown_sec := 600, learn_rate_fast := 1/2, min_offset_change := 1/5,
    enable_learning := true, no_learn_summer := false, window_no_learn_min := 600,
    room_target := 22, heating_alpha := 1/10, overshoot_threshold := 1/2,
    predict_minutes := 5, stuck_enable := true, stuck_seconds := 1800,
    stuck_min_drop := 1/10, stuck_step := 1/2, ttt_alpha := 1/5, ttt_soft_min := 10,
    boost_duration_sec := some 300, MIN_OFFSET := -5, MAX_OFFSET := 5 }

/-- The controller's state right after `__init__` / `async_start` with a fresh
store (offset 0, heating rate 0.1, minutes-per-degree 15, slow rate 0.1). -/
def initState : State :=
  { last_set := none, last_change := 0, last_action := ActionTag.init,
    last_error := none, last_target_trv := none, change_count := 0,
    boost_active := false, boost_until := 0, window_is_open := false,
    window_open_since := none, last_room_target := none, force_next_control := false,
    stuck_active := false, stuck_ref_temp := none, stuck_ref_time := none,
    stuck_bias := 0, stable_since := none, stable_target := none,
    stable_last_set := none, heating_rate := 1/10, overshoot_count := 0,
    prev_room_temp := none, prev_time := none, learn_rate_slow := 1/10,
    last_offset_update := 0, last_heating_rate_save := 0, heat_episode := none,
    minutes_per_degree := 15, offset := 0, store_overshoot_count := 0,
    store_heating_rate := 1/10, store_minutes_per_degree := 15 }

/-- Inputs of the spec's active-control scenario: room 20.0, window closed,
boost inactive. -/
def inpC7 : Inputs :=
  { climate_present := true, room_reading := some (some 20), window_states := [],
    month := 1, now := 1000 }

/-- Entity map with two room sensors reading 20 and 30. -/
def readC2 (s : String) : Option (Option ℚ) :=
  if s = "s1" then some (some 20) else if s = "s2" then some (some 30) else none

/-- The configured room-sensor list of the virtual climate entity. -/
def sensorsC2 : List String := ["s1", "s2"]

/-- Configuration for the sensor-averaging check: target 20, learning off. -/
def cfgC2 : Config := { cfgDefault with room_target := 20, enable_learning := false }

/-- A held state: setpoint 21 commanded, target unchanged at 20. -/
def sC2 : State := { initState with last_set := some 21, last_room_target := some 20 }

/-- A state mid-dwell inside the deadband (stability tracking armed) with a
commanded setpoint. -/
def sC3 : State :=
  { initState with stable_since := some 5, stable_target := some 22,
                   stable_last_set := some 22, last_set := some 22 }

/-- Tick inputs with one window sensor reporting "on". -/
def inpC3 : Inputs :=
  { climate_present := true, room_reading := some (some 20),
    window_states := [some "on"], month := 1, now := 1000 }

/-- A held state at the target: setpoint 22 commanded, target unchanged. -/
def sC4 : State := { initState with last_set := some 22, last_room_target := some 22 }

/-- Tick inputs: room at target (zero error) but a window open. -/
def inpC4 : Inputs :=
  { climate_present := true, room_reading := some (some 22),
    window_states := [some "on"], month := 1, now := 1000 }

/-- Iterated overshoot ticks: `n` consecutive evaluations of the overshoot
block with room 23 > target 22 + threshold 0.5. -/
def overshootRun : ℕ → State
  | 0 => initState
  | n + 1 => overshootStep cfgDefault 23 22 (overshootRun n)

/-- Configuration with a configured boost duration of 20 seconds. -/
def cfgC10 : Config := { cfgDefault with boost_duration_sec := some 20 }

theorem ratFloorEq (q : ℚ) (n : ℤ) (h1 : (n:ℚ) ≤ q) (h2 : q < (n:ℚ)+1) :
    Rat.floor q = n := by
  have hle : n ≤ Rat.floor q := Rat.le_floor.mpr h1
  have hlt : Rat.floor q < n + 1 := by
    by_contra h
    push_neg at h
    exact absurd (Rat.le_floor.mp h) (by push_cast; exact not_le.mpr h2)
  omega

theorem maxQ_eq (a b : ℚ) : maxQ a b = max a b := (max_def a b).symm

theorem minQ_eq (a b : ℚ) : minQ a b = min a b := (min_def a b).symm

theorem absQ_eq (a : ℚ) : absQ a = |a| := by
  unfold absQ
  rcases lt_or_le a 0 with h | h
  · rw [if_pos h, abs_of_neg h]
  · rw [if_neg (not_lt.mpr h), abs_of_nonneg h]

theorem clampQ_mem (v lo hi : ℚ) (h : lo ≤ hi) :
    lo ≤ clampQ v lo hi ∧ clampQ v lo hi ≤ hi := by
  unfold clampQ
  rw [maxQ_eq, minQ_eq]
  constructor
  · exact le_max_left _ _
  · exact max_le h (min_le_left _ _)

/-- C10: `start_boost` arms the boost for `clamp(duration, 30, 3600)` seconds,
where a missing or zero configured duration first falls back to the default
300; the boost window is always between 30 seconds and one hour. -/
theorem spec_c10_boost_duration (cfg : Config) (now : ℚ) (s : State) :
    (startBoost cfg now s).boost_active = true ∧
    (∀ d : ℤ, cfg.boost_duration_sec = some d → 30 ≤ d → d ≤ 3600 →
      (startBoost cfg now s).boost_until = now + (d:ℚ)) ∧
    (∀ d : ℤ, cfg.boost_duration_sec = some d → d ≠ 0 → d < 30 →
      (startBoost cfg now s).boost_until = now + 30) ∧
    (∀ d : ℤ, cfg.boost_duration_sec = some d → 3600 < d →
      (startBoost cfg now s).boost_until = now + 3600) ∧
    ((cfg.boost_duration_sec = none ∨ cfg.boost_duration_sec = some 0) →
      (startBoost cfg now s).boost_until = now + 300) ∧
    (30 ≤ (startBoost cfg now s).boost_until - now ∧
      (startBoost cfg now s).boost_until - now ≤ 3600) := by
  have hbu : (startBoost cfg now s).boost_until =
      now + ((maxZ 30 (minZ (match cfg.boost_duration_sec with
        | none => (300:ℤ)
        | some d => if d = 0 then 300 else d) 3600)) : ℚ) := rfl
  have hmm : ∀ x : ℤ, x ≠ 0 → maxZ 30 (minZ (if x = 0 then 300 else x) 3600) =
      maxZ 30 (minZ x 3600) := by
    intro x hx
    rw [if_neg hx]
  have hval : ∀ x : ℤ, maxZ 30 (minZ x 3600) =
      if x ≤ 3600 then (if 30 ≤ x then x else 30) else 3600 := by
    intro x
    unfold maxZ minZ
    rcases le_or_lt x 3600 with h | h
    · rw [if_pos h, if_pos h]
    · rw [if_neg (not_le.mpr h), if_neg (not_le.mpr h),
          if_pos (by omega : (30:ℤ) ≤ 3600)]
  refine ⟨rfl, ?_, ?_, ?_, ?_, ?_⟩
  · intro d hd h30 h36
    rw [hbu]
    simp only [hd]
    rw [hmm d (by omega), hval, if_pos h36, if_pos h30]
  · intro d hd hno h30
    rw [hbu]
    simp only [hd]
    rw [hmm d hno, hval, if_pos (by omega : d ≤ 3600), if_neg (by omega : ¬ (30:ℤ) ≤ d)]
    norm_num
  · intro d hd h36
    rw [hbu]
    simp only [hd]
    rw [hmm d (by omega), hval, if_neg (by omega : ¬ d ≤ 3600)]
    norm_num
  · intro hd
    rcases hd with hd | hd <;>
      · rw [hbu]
        simp only [hd]
        norm_num [maxZ, minZ]
  · rw [hbu, add_sub_cancel_left]
    have hb : ∀ x : ℤ, (30:ℤ) ≤ maxZ 30 (minZ x 3600) ∧ maxZ 30 (minZ x 3600) ≤ 3600 := by
      intro x
      rw [hval]
      rcases le_or_lt x 3600 with h | h
      · rw [if_pos h]
        rcases le_or_lt 30 x with h2 | h2
        · rw [if_pos h2]; omega
        · rw [if_neg (not_le.mpr h2)]; omega
      · rw [if_neg (not_le.mpr h)]; omega
    constructor
    · exact_mod_cast (hb _).1
    · exact_mod_cast (hb _).2

/-- C9: when the climate entity or room sensor is unavailable, or the room
state does not parse, the tick records only a diagnostic action tag, changes
nothing else, issues no actuation, and still notifies observers. -/
theorem spec_c9_missing_input (cfg : Config) (inp : Inputs) (s : State)
    (h : inp.climate_present = false ∨ inp.room_reading = none ∨
         inp.room_reading = some none) :
    (tick cfg inp s).acts = [] ∧ (tick cfg inp s).notified = true ∧
    ((tick cfg inp s).state = { s with last_action := ActionTag.skipped_unavailable_entities } ∨
     (tick cfg inp s).state = { s with last_action := ActionTag.skipped_invalid_room_temp }) := by
  rcases h with h | h | h
  · simp [tick, getSensorData, h]
  · cases hc : inp.climate_present <;> simp [tick, getSensorData, h, hc]
  · cases hc : inp.climate_present <;> simp [tick, getSensorData, h, hc]

theorem spec_c9_missing_input_witness :
    (tick cfgDefault ⟨false, some (some 20), [], 1, 0⟩ initState).acts = [] ∧
    (tick cfgDefault ⟨false, some (some 20), [], 1, 0⟩ initState).notified = true := by
  have h := spec_c9_missing_input cfgDefault ⟨false, some (some 20), [], 1, 0⟩
    initState (Or.inl rfl)
  exact ⟨h.1, h.2.1⟩

/-- C6: each overshoot tick increments the stored counter; past 3 the slow
learning rate is shrunk by 10% (floored at 0.01) and the controller's counter
resets to 0 — but the stored counter is never reset, so on the very next
overshoot tick (a single observation after the reset) the auto-tune fires
again: after 5 consecutive overshoot ticks the rate has been shrunk twice. -/
theorem spec_c6_overshoot_autotune_refires :
    (overshootRun 3).learn_rate_slow = 1/10 ∧
    (overshootRun 3).overshoot_count = 3 ∧
    (overshootRun 4).learn_rate_slow = 9/100 ∧
    (overshootRun 4).overshoot_count = 0 ∧
    (overshootRun 4).store_overshoot_count = 4 ∧
    (overshootRun 5).learn_rate_slow = 81/1000 ∧
    (overshootRun 5).store_overshoot_count = 5 := by
  norm_num [overshootRun, overshootStep, cfgDefault, initState, maxQ]

set_option maxHeartbeats 2000000 in
/-- C7: the spec's active-control scenario: target 22, room 20, defaults —
the tick persists offset 1.0, the correction is 1.0, the commanded setpoint
is 24.0, and the action tag is `set_temperature`. -/
theorem spec_c7_active_scenario :
    (tick cfgDefault inpC7 initState).state.offset = 1 ∧
    computeCorrection cfgDefault (22 - 20) initState = 1 ∧
    (tick cfgDefault inpC7 initState).acts = [24] ∧
    (tick cfgDefault inpC7 initState).state.last_set = some 24 ∧
    (tick cfgDefault inpC7 initState).state.last_action = ActionTag.set_temperature := by
  have h1 : Rat.floor (48:ℚ) = 48 := ratFloorEq _ _ (by norm_num) (by norm_num)
  have h2 : Rat.floor (2000:ℚ) = 2000 := ratFloorEq _ _ (by norm_num) (by norm_num)
  norm_num [tick, getSensorData, handleWindowCondition, handleBoostCondition,
    handleDeadband, handleStableLearning, handleActiveControl, maybeStartHeatEpisode,
    updateHeatEpisode, maybeFinishHeatEpisode, overshootStep, activeLearnStep,
    computeCorrection, handleStuckDetection, activeFinish, activeCandidate,
    activeSuppress, setTrvTemperature,
    updateHeatingRate, handleOffsetDecay, postPrev, cancelBoost,
    resetStabilityTracking, shouldSend, isOpenState, clampQ, maxQ, minQ, absQ,
    roundStep, pyRound, round3, eps9, cfgDefault, initState, inpC7, h1, h2]

theorem setTrv_offset (now t : ℚ) (s : State) :
    (setTrvTemperature now t s).2.1.offset = s.offset := by
  unfold setTrvTemperature
  try dsimp only
  repeat' split
  all_goals rfl

theorem maybeStart_offset (now room target deadband : ℚ) (s : State) :
    (maybeStartHeatEpisode now room target deadband s).offset = s.offset := by
  unfold maybeStartHeatEpisode
  try dsimp only
  repeat' split
  all_goals rfl

theorem updateEpisode_offset (room : ℚ) (s : State) :
    (updateHeatEpisode room s).offset = s.offset := by
  unfold updateHeatEpisode
  try dsimp only
  repeat' split
  all_goals rfl

theorem maybeFinish_offset (cfg : Config) (now room target deadband : ℚ) (s : State) :
    (maybeFinishHeatEpisode cfg now room target deadband s).offset = s.offset := by
  unfold maybeFinishHeatEpisode
  try dsimp only
  repeat' split
  all_goals rfl

theorem overshoot_offset (cfg : Config) (room target : ℚ) (s : State) :
    (overshootStep cfg room target s).offset = s.offset := by
  unfold overshootStep
  try dsimp only
  repeat' split
  all_goals rfl

theorem stuck_offset (cfg : Config) (room e now t : ℚ) (s : State) :
    (handleStuckDetection cfg room e now t s).1.offset = s.offset := by
  unfold handleStuckDetection
  try dsimp only
  repeat' split
  all_goals rfl

theorem heatRate_offset (cfg : Config) (room now : ℚ) (s : State) :
    (updateHeatingRate cfg room now s).offset = s.offset := by
  unfold updateHeatingRate
  try dsimp only
  repeat' split
  all_goals rfl
theorem mul_mem_bounds (lo hi cur m : ℚ) (hlo : lo ≤ 0) (hhi : 0 ≤ hi)
    (h1 : lo ≤ cur) (h2 : cur ≤ hi) (hm0 : 0 ≤ m) (hm1 : m ≤ 1) :
    lo ≤ cur * m ∧ cur * m ≤ hi := by
  rcases le_or_lt 0 cur with h | h
  · refine ⟨le_trans hlo (mul_nonneg h hm0), le_trans ?_ h2⟩
    nlinarith
  · refine ⟨le_trans h1 ?_, le_trans ?_ hhi⟩
    · nlinarith
    · nlinarith

theorem convex_bound (lo hi cur i : ℚ) (h1 : lo ≤ cur) (h2 : cur ≤ hi)
    (hi1 : lo ≤ i) (hi2 : i ≤ hi) :
    lo ≤ cur + 1/4 * (i - cur) ∧ cur + 1/4 * (i - cur) ≤ hi := by
  constructor <;> linarith

theorem offset_bound_activeLearn (cfg : Config) (e now : ℚ) (s : State)
    (hmm : cfg.MIN_OFFSET ≤ cfg.MAX_OFFSET)
    (h1 : cfg.MIN_OFFSET ≤ s.offset) (h2 : s.offset ≤ cfg.MAX_OFFSET) :
    cfg.MIN_OFFSET ≤ (activeLearnStep cfg e now s).offset ∧
    (activeLearnStep cfg e now s).offset ≤ cfg.MAX_OFFSET := by
  unfold activeLearnStep
  try dsimp only
  repeat' split
  all_goals first
    | exact ⟨h1, h2⟩
    | exact ⟨by simpa using (clampQ_mem _ _ _ hmm).1,
             by simpa using (clampQ_mem _ _ _ hmm).2⟩

theorem offset_bound_stable (cfg : Config) (room target : ℚ) (inp : Inputs) (s : State)
    (hmm : cfg.MIN_OFFSET ≤ cfg.MAX_OFFSET)
    (h1 : cfg.MIN_OFFSET ≤ s.offset) (h2 : s.offset ≤ cfg.MAX_OFFSET) :
    cfg.MIN_OFFSET ≤ (handleStableLearning cfg room target inp s).offset ∧
    (handleStableLearning cfg room target inp s).offset ≤ cfg.MAX_OFFSET := by
  unfold handleStableLearning resetStabilityTracking
  try dsimp only
  repeat' split
  all_goals first
    | exact ⟨h1, h2⟩
    | exact ⟨by simpa using (convex_bound _ _ _ _ h1 h2
               (clampQ_mem _ _ _ hmm).1 (clampQ_mem _ _ _ hmm).2).1,
             by simpa using (convex_bound _ _ _ _ h1 h2
               (clampQ_mem _ _ _ hmm).1 (clampQ_mem _ _ _ hmm).2).2⟩

theorem offset_bound_decay (cfg : Config) (now : ℚ) (s : State)
    (hlo : cfg.MIN_OFFSET ≤ 0) (hhi : 0 ≤ cfg.MAX_OFFSET)
    (h1 : cfg.MIN_OFFSET ≤ s.offset) (h2 : s.offset ≤ cfg.MAX_OFFSET) :
    cfg.MIN_OFFSET ≤ (handleOffsetDecay cfg now s).offset ∧
    (handleOffsetDecay cfg now s).offset ≤ cfg.MAX_OFFSET := by
  unfold handleOffsetDecay
  try dsimp only
  split_ifs with hA hB hC hD
  · exact ⟨h1, h2⟩
  · have hm0 : (0:ℚ) ≤ maxQ 0 (1 - 1/100 * ((now - s.last_offset_update) / (24 * 3600))) := by
      rw [maxQ_eq]
      exact le_max_left _ _
    have hm1 : maxQ 0 (1 - 1/100 * ((now - s.last_offset_update) / (24 * 3600))) ≤ 1 := by
      rw [maxQ_eq]
      refine max_le (by norm_num) (by linarith)
    have hres := mul_mem_bounds cfg.MIN_OFFSET cfg.MAX_OFFSET s.offset _ hlo hhi h1 h2 hm0 hm1
    exact ⟨by simpa using hres.1, by simpa using hres.2⟩
  · exact ⟨h1, h2⟩
  · exact ⟨h1, h2⟩
  · exact ⟨h1, h2⟩

theorem offset_bound_activeFinish (cfg : Config) (room e now t : ℚ) (s : State)
    (hlo : cfg.MIN_OFFSET ≤ 0) (hhi : 0 ≤ cfg.MAX_OFFSET)
    (h1 : cfg.MIN_OFFSET ≤ s.offset) (h2 : s.offset ≤ cfg.MAX_OFFSET) :
    cfg.MIN_OFFSET ≤ (activeFinish cfg room e now t s).1.offset ∧
    (activeFinish cfg room e now t s).1.offset ≤ cfg.MAX_OFFSET := by
  unfold activeFinish
  try dsimp only
  refine offset_bound_decay cfg now _ hlo hhi ?_ ?_ <;>
    split_ifs <;>
      simp only [heatRate_offset, setTrv_offset] <;> assumption

theorem offset_bound_candidate (cfg : Config) (room target : ℚ) (inp : Inputs)
    (s : State) (hmm : cfg.MIN_OFFSET ≤ cfg.MAX_OFFSET)
    (h1 : cfg.MIN_OFFSET ≤ s.offset) (h2 : s.offset ≤ cfg.MAX_OFFSET) :
    cfg.MIN_OFFSET ≤ (activeCandidate cfg room target inp s).1.offset ∧
    (activeCandidate cfg room target inp s).1.offset ≤ cfg.MAX_OFFSET := by
  have hb := offset_bound_activeLearn cfg (target - room) inp.now
    (overshootStep cfg room target (maybeFinishHeatEpisode cfg inp.now room target
      cfg.deadband (updateHeatEpisode room (maybeStartHeatEpisode inp.now room target
        cfg.deadband s)))) hmm
    (by simp only [overshoot_offset, maybeFinish_offset, updateEpisode_offset,
          maybeStart_offset]; exact h1)
    (by simp only [overshoot_offset, maybeFinish_offset, updateEpisode_offset,
          maybeStart_offset]; exact h2)
  unfold activeCandidate
  try dsimp only
  constructor <;> split_ifs <;> simp only [stuck_offset, hb.1, hb.2]

theorem offset_bound_suppress (cfg : Config) (room e now t : ℚ) (s : State)
    (hlo : cfg.MIN_OFFSET ≤ 0) (hhi : 0 ≤ cfg.MAX_OFFSET)
    (h1 : cfg.MIN_OFFSET ≤ s.offset) (h2 : s.offset ≤ cfg.MAX_OFFSET) :
    cfg.MIN_OFFSET ≤ (activeSuppress cfg room e now t s).1.offset ∧
    (activeSuppress cfg room e now t s).1.offset ≤ cfg.MAX_OFFSET := by
  unfold activeSuppress
  try dsimp only
  repeat' split
  all_goals first
    | exact ⟨h1, h2⟩
    | exact offset_bound_activeFinish cfg room e now t _ hlo hhi h1 h2

theorem offset_bound_activeControl (cfg : Config) (room target : ℚ) (inp : Inputs)
    (s : State) (hlo : cfg.MIN_OFFSET ≤ 0) (hhi : 0 ≤ cfg.MAX_OFFSET)
    (h1 : cfg.MIN_OFFSET ≤ s.offset) (h2 : s.offset ≤ cfg.MAX_OFFSET) :
    cfg.MIN_OFFSET ≤ (handleActiveControl cfg room target inp s).1.offset ∧
    (handleActiveControl cfg room target inp s).1.offset ≤ cfg.MAX_OFFSET := by
  have hc := offset_bound_candidate cfg room target inp s (le_trans hlo hhi) h1 h2
  unfold handleActiveControl
  try dsimp only
  exact offset_bound_suppress cfg room (target - room) inp.now _ _ hlo hhi hc.1 hc.2

/-- C1: every learning operation that writes the offset — active learning
(inside the active-control pipeline), stable learning, offset decay, and the
manual reset — leaves the persisted offset inside `[MIN_OFFSET, MAX_OFFSET]`,
given offset bounds with `MIN_OFFSET ≤ 0 ≤ MAX_OFFSET` and an in-bounds
offset before the call. -/
theorem spec_c1_offset_bounds (cfg : Config) (room target now : ℚ) (inp : Inputs)
    (s : State) (hlo : cfg.MIN_OFFSET ≤ 0) (hhi : 0 ≤ cfg.MAX_OFFSET)
    (h1 : cfg.MIN_OFFSET ≤ s.offset) (h2 : s.offset ≤ cfg.MAX_OFFSET) :
    (cfg.MIN_OFFSET ≤ (handleActiveControl cfg room target inp s).1.offset ∧
      (handleActiveControl cfg room target inp s).1.offset ≤ cfg.MAX_OFFSET) ∧
    (cfg.MIN_OFFSET ≤ (handleStableLearning cfg room target inp s).offset ∧
      (handleStableLearning cfg room target inp s).offset ≤ cfg.MAX_OFFSET) ∧
    (cfg.MIN_OFFSET ≤ (handleOffsetDecay cfg now s).offset ∧
      (handleOffsetDecay cfg now s).offset ≤ cfg.MAX_OFFSET) ∧
    (cfg.MIN_OFFSET ≤ (resetOffset s).offset ∧
      (resetOffset s).offset ≤ cfg.MAX_OFFSET) := by
  refine ⟨offset_bound_activeControl cfg room target inp s hlo hhi h1 h2,
    offset_bound_stable cfg room target inp s (le_trans hlo hhi) h1 h2,
    offset_bound_decay cfg now s hlo hhi h1 h2, ?_⟩
  unfold resetOffset
  exact ⟨by simpa using hlo, by simpa using hhi⟩

theorem spec_c1_offset_bounds_witness :
    cfgDefault.MIN_OFFSET ≤ 0 ∧ (0:ℚ) ≤ cfgDefault.MAX_OFFSET ∧
    cfgDefault.MIN_OFFSET ≤ (handleActiveControl cfgDefault 20 22 inpC7 initState).1.offset ∧
    (handleActiveControl cfgDefault 20 22 inpC7 initState).1.offset ≤ cfgDefault.MAX_OFFSET ∧
    cfgDefault.MIN_OFFSET ≤ (resetOffset initState).offset ∧
    (resetOffset initState).offset ≤ cfgDefault.MAX_OFFSET := by
  have hlo : cfgDefault.MIN_OFFSET ≤ 0 := by norm_num [cfgDefault]
  have hhi : (0:ℚ) ≤ cfgDefault.MAX_OFFSET := by norm_num [cfgDefault]
  have h1 : cfgDefault.MIN_OFFSET ≤ initState.offset := by norm_num [cfgDefault, initState]
  have h2 : initState.offset ≤ cfgDefault.MAX_OFFSET := by norm_num [cfgDefault, initState]
  have h := spec_c1_offset_bounds cfgDefault 20 22 0 inpC7 initState hlo hhi h1 h2
  exact ⟨hlo, hhi, h.1.1, h.1.2, h.2.2.2.1, h.2.2.2.2⟩

theorem activeLearn_hyst (cfg : Config) (e now : ℚ) (s : State) :
    (activeLearnStep cfg e now s).offset = s.offset ∨
    cfg.min_offset_change ≤ absQ ((activeLearnStep cfg e now s).offset - s.offset) := by
  unfold activeLearnStep
  try dsimp only
  repeat' split
  all_goals first
    | exact Or.inl rfl
    | (rename_i h; right; simpa using h)

theorem stable_hyst (cfg : Config) (room target : ℚ) (inp : Inputs) (s : State) :
    (handleStableLearning cfg room target inp s).offset = s.offset ∨
    cfg.min_offset_change ≤
      absQ ((handleStableLearning cfg room target inp s).offset - s.offset) := by
  unfold handleStableLearning resetStabilityTracking
  try dsimp only
  repeat' split
  all_goals first
    | exact Or.inl rfl
    | (rename_i h; right; simpa using h)

theorem decay_hyst (cfg : Config) (now : ℚ) (s : State) :
    (handleOffsetDecay cfg now s).offset = s.offset ∨
    cfg.min_offset_change ≤ absQ ((handleOffsetDecay cfg now s).offset - s.offset) := by
  unfold handleOffsetDecay
  try dsimp only
  repeat' split
  all_goals first
    | exact Or.inl rfl
    | (rename_i h; right; simpa using h)

theorem learningOp_hyst (cfg : Config) (f : State → State) (h : IsLearningOp cfg f)
    (s : State) :
    (f s).offset = s.offset ∨ cfg.min_offset_change ≤ absQ ((f s).offset - s.offset) := by
  rcases h with ⟨e, now, rfl⟩ | ⟨room, target, inp, rfl⟩ | ⟨now, rfl⟩
  · exact activeLearn_hyst cfg e now s
  · exact stable_hyst cfg room target inp s
  · exact decay_hyst cfg now s

theorem foldOffsetUnchanged (cfg : Config) (fs : List (State → State)) (s : State)
    (hops : ∀ f ∈ fs, IsLearningOp cfg f)
    (hsmall : deltasSmall cfg.min_offset_change s fs = true) :
    (fs.foldl (fun t f => f t) s).offset = s.offset := by
  induction fs generalizing s with
  | nil => rfl
  | cons f fs ih =>
    simp only [List.foldl_cons]
    have hsm := hsmall
    simp only [deltasSmall, Bool.and_eq_true, decide_eq_true_eq] at hsm
    have heq : (f s).offset = s.offset := by
      rcases learningOp_hyst cfg f (hops f (List.mem_cons_self f fs)) s with h | h
      · exact h
      · linarith [hsm.1]
    rw [ih (f s) (fun g hg => hops g (List.mem_cons_of_mem f hg)) hsm.2, heq]

/-- C5: an offset update of active learning, stable learning, or offset decay
changes the persisted value only when it moves by at least
`min_offset_change`; consequently a sequence of such updates whose individual
deltas all stay below `min_offset_change` leaves the persisted offset
unchanged. -/
theorem spec_c5_offset_hysteresis (cfg : Config) (e now room target dnow : ℚ)
    (inp : Inputs) (s : State) (fs : List (State → State))
    (hops : ∀ f ∈ fs, IsLearningOp cfg f)
    (hsmall : deltasSmall cfg.min_offset_change s fs = true) :
    ((activeLearnStep cfg e now s).offset = s.offset ∨
      cfg.min_offset_change ≤ absQ ((activeLearnStep cfg e now s).offset - s.offset)) ∧
    ((handleStableLearning cfg room target inp s).offset = s.offset ∨
      cfg.min_offset_change ≤
        absQ ((handleStableLearning cfg room target inp s).offset - s.offset)) ∧
    ((handleOffsetDecay cfg dnow s).offset = s.offset ∨
      cfg.min_offset_change ≤ absQ ((handleOffsetDecay cfg dnow s).offset - s.offset)) ∧
    (fs.foldl (fun t f => f t) s).offset = s.offset :=
  ⟨activeLearn_hyst cfg e now s, stable_hyst cfg room target inp s,
    decay_hyst cfg dnow s, foldOffsetUnchanged cfg fs s hops hsmall⟩

theorem spec_c5_offset_hysteresis_witness :
    (([activeLearnStep cfgDefault (3/10) 10,
       handleOffsetDecay cfgDefault 50].foldl (fun t f => f t) initState)).offset =
      initState.offset := by
  have hops : ∀ f ∈ [activeLearnStep cfgDefault (3/10) 10,
      handleOffsetDecay cfgDefault 50], IsLearningOp cfgDefault f := by
    intro f hf
    rcases List.mem_cons.mp hf with rfl | hf2
    · exact Or.inl ⟨3/10, 10, rfl⟩
    · rcases List.mem_cons.mp hf2 with rfl | hf3
      · exact Or.inr (Or.inr ⟨50, rfl⟩)
      · exact absurd hf3 (List.not_mem_nil f)
  have hsmall : deltasSmall cfgDefault.min_offset_change initState
      [activeLearnStep cfgDefault (3/10) 10, handleOffsetDecay cfgDefault 50] = true := by
    norm_num [deltasSmall, activeLearnStep, handleOffsetDecay, cfgDefault, initState,
      absQ, clampQ, maxQ, minQ]
  exact (spec_c5_offset_hysteresis cfgDefault (3/10) 10 20 22 50 inpC7 initState _
    hops hsmall).2.2.2

theorem maybeStart_ls (now room target deadband : ℚ) (s : State) :
    (maybeStartHeatEpisode now room target deadband s).last_set = s.last_set := by
  unfold maybeStartHeatEpisode
  try dsimp only
  repeat' split
  all_goals rfl

theorem maybeStart_lc (now room target deadband : ℚ) (s : State) :
    (maybeStartHeatEpisode now room target deadband s).last_change = s.last_change := by
  unfold maybeStartHeatEpisode
  try dsimp only
  repeat' split
  all_goals rfl

theorem maybeStart_fc (now room target deadband : ℚ) (s : State) :
    (maybeStartHeatEpisode now room target deadband s).force_next_control = s.force_next_control := by
  unfold maybeStartHeatEpisode
  try dsimp only
  repeat' split
  all_goals rfl

theorem updateEpisode_ls (room : ℚ) (s : State) :
    (updateHeatEpisode room s).last_set = s.last_set := by
  unfold updateHeatEpisode
  try dsimp only
  repeat' split
  all_goals rfl

theorem updateEpisode_lc (room : ℚ) (s : State) :
    (updateHeatEpisode room s).last_change = s.last_change := by
  unfold updateHeatEpisode
  try dsimp only
  repeat' split
  all_goals rfl

theorem updateEpisode_fc (room : ℚ) (s : State) :
    (updateHeatEpisode room s).force_next_control = s.force_next_control := by
  unfold updateHeatEpisode
  try dsimp only
  repeat' split
  all_goals rfl

theorem maybeFinish_ls (cfg : Config) (now room target deadband : ℚ) (s : State) :
    (maybeFinishHeatEpisode cfg now room target deadband s).last_set = s.last_set := by
  unfold maybeFinishHeatEpisode
  try dsimp only
  repeat' split
  all_goals rfl

theorem maybeFinish_lc (cfg : Config) (now room target deadband : ℚ) (s : State) :
    (maybeFinishHeatEpisode cfg now room target deadband s).last_change = s.last_change := by
  unfold maybeFinishHeatEpisode
  try dsimp only
  repeat' split
  all_goals rfl

theorem maybeFinish_fc (cfg : Config) (now room target deadband : ℚ) (s : State) :
    (maybeFinishHeatEpisode cfg now room target deadband s).force_next_control = s.force_next_control := by
  unfold maybeFinishHeatEpisode
  try dsimp only
  repeat' split
  all_goals rfl

theorem overshoot_ls (cfg : Config) (room target : ℚ) (s : State) :
    (overshootStep cfg room target s).last_set = s.last_set := by
  unfold overshootStep
  try dsimp only
  repeat' split
  all_goals rfl

theorem overshoot_lc (cfg : Config) (room target : ℚ) (s : State) :
    (overshootStep cfg room target s).last_change = s.last_change := by
  unfold overshootStep
  try dsimp only
  repeat' split
  all_goals rfl

theorem overshoot_fc (cfg : Config) (room target : ℚ) (s : State) :
    (overshootStep cfg room target s).force_next_control = s.force_next_control := by
  unfold overshootStep
  try dsimp only
  repeat' split
  all_goals rfl

theorem activeLearn_ls (cfg : Config) (e now : ℚ) (s : State) :
    (activeLearnStep cfg e now s).last_set = s.last_set := by
  unfold activeLearnStep
  try dsimp only
  repeat' split
  all_goals rfl

theorem activeLearn_lc (cfg : Config) (e now : ℚ) (s : State) :
    (activeLearnStep cfg e now s).last_change = s.last_change := by
  unfold activeLearnStep
  try dsimp only
  repeat' split
  all_goals rfl

theorem activeLearn_fc (cfg : Config) (e now : ℚ) (s : State) :
    (activeLearnStep cfg e now s).force_next_control = s.force_next_control := by
  unfold activeLearnStep
  try dsimp only
  repeat' split
  all_goals rfl

theorem stuck_ls (cfg : Config) (room e now t : ℚ) (s : State) :
    ((handleStuckDetection cfg room e now t s).1).last_set = s.last_set := by
  unfold handleStuckDetection
  try dsimp only
  repeat' split
  all_goals rfl

theorem stuck_lc (cfg : Config) (room e now t : ℚ) (s : State) :
    ((handleStuckDetection cfg room e now t s).1).last_change = s.last_change := by
  unfold handleStuckDetection
  try dsimp only
  repeat' split
  all_goals rfl

theorem stuck_fc (cfg : Config) (room e now t : ℚ) (s : State) :
    ((handleStuckDetection cfg room e now t s).1).force_next_control = s.force_next_control := by
  unfold handleStuckDetection
  try dsimp only
  repeat' split
  all_goals rfl

theorem heatRate_ls (cfg : Config) (room now : ℚ) (s : State) :
    (updateHeatingRate cfg room now s).last_set = s.last_set := by
  unfold updateHeatingRate
  try dsimp only
  repeat' split
  all_goals rfl

theorem heatRate_lc (cfg : Config) (room now : ℚ) (s : State) :
    (updateHeatingRate cfg room now s).last_change = s.last_change := by
  unfold updateHeatingRate
  try dsimp only
  repeat' split
  all_goals rfl

theorem heatRate_fc (cfg : Config) (room now : ℚ) (s : State) :
    (updateHeatingRate cfg room now s).force_next_control = s.force_next_control := by
  unfold updateHeatingRate
  try dsimp only
  repeat' split
  all_goals rfl

theorem decay_ls (cfg : Config) (now : ℚ) (s : State) :
    (handleOffsetDecay cfg now s).last_set = s.last_set := by
  unfold handleOffsetDecay
  try dsimp only
  repeat' split
  all_goals rfl

theorem decay_lc (cfg : Config) (now : ℚ) (s : State) :
    (handleOffsetDecay cfg now s).last_change = s.last_change := by
  unfold handleOffsetDecay
  try dsimp only
  repeat' split
  all_goals rfl

theorem decay_fc (cfg : Config) (now : ℚ) (s : State) :
    (handleOffsetDecay cfg now s).force_next_control = s.force_next_control := by
  unfold handleOffsetDecay
  try dsimp only
  repeat' split
  all_goals rfl

theorem candidate_frame (cfg : Config) (room target : ℚ) (inp : Inputs) (s : State) :
    (activeCandidate cfg room target inp s).1.last_set = s.last_set ∧
    (activeCandidate cfg room target inp s).1.last_change = s.last_change ∧
    (activeCandidate cfg room target inp s).1.force_next_control = s.force_next_control := by
  unfold activeCandidate
  try dsimp only
  refine ⟨?_, ?_, ?_⟩ <;>
    split_ifs <;>
      simp only [stuck_ls, stuck_lc, stuck_fc, activeLearn_ls, activeLearn_lc,
        activeLearn_fc, overshoot_ls, overshoot_lc, overshoot_fc, maybeFinish_ls,
        maybeFinish_lc, maybeFinish_fc, updateEpisode_ls, updateEpisode_lc,
        updateEpisode_fc, maybeStart_ls, maybeStart_lc, maybeStart_fc]

theorem activeFinish_acts (cfg : Config) (room e now t : ℚ) (s : State) :
    ((activeFinish cfg room e now t s).2 = [] ∧
     (activeFinish cfg room e now t s).1.last_set = s.last_set ∧
     (activeFinish cfg room e now t s).1.last_change = s.last_change ∧
     (activeFinish cfg room e now t s).1.force_next_control = s.force_next_control) ∨
    ((activeFinish cfg room e now t s).2 = [t] ∧
     (activeFinish cfg room e now t s).1.last_set = some t ∧
     (activeFinish cfg room e now t s).1.last_change = now ∧
     (activeFinish cfg room e now t s).1.force_next_control = false) := by
  unfold activeFinish setTrvTemperature
  try dsimp only
  repeat' split
  all_goals first
    | (left
       refine ⟨rfl, ?_, ?_, ?_⟩ <;>
         simp only [decay_ls, decay_lc, decay_fc, heatRate_ls, heatRate_lc, heatRate_fc])
    | (right
       refine ⟨rfl, ?_, ?_, ?_⟩ <;>
         simp only [decay_ls, decay_lc, decay_fc, heatRate_ls, heatRate_lc, heatRate_fc])

theorem suppress_acts (cfg : Config) (room e now t : ℚ) (s : State) :
    (activeSuppress cfg room e now t s).2 = [] ∨
    ((activeSuppress cfg room e now t s).2 = [t] ∧
     (activeSuppress cfg room e now t s).1.last_set = some t ∧
     (activeSuppress cfg room e now t s).1.last_change = now ∧
     (activeSuppress cfg room e now t s).1.force_next_control = false) := by
  unfold activeSuppress
  try dsimp only
  repeat' split
  all_goals try exact Or.inl rfl
  all_goals
    rcases activeFinish_acts cfg room e now t _ with ⟨h1, _, _, _⟩ | ⟨h1, h2, h3, h4⟩
  · exact Or.inl h1
  · exact Or.inr ⟨h1, h2, h3, h4⟩
  · exact Or.inl h1
  · exact Or.inr ⟨h1, h2, h3, h4⟩

theorem suppress_suppressed (cfg : Config) (room e now t : ℚ) (s : State) (v : ℚ)
    (hls : s.last_set = some v) (hforce : s.force_next_control = false)
    (hcool : now - s.last_change < cfg.cooldown_sec) :
    (activeSuppress cfg room e now t s).2 = [] ∧
    ((activeSuppress cfg room e now t s).1.last_action = ActionTag.skipped_no_change ∨
     (activeSuppress cfg room e now t s).1.last_action = ActionTag.cooldown) := by
  unfold activeSuppress
  try dsimp only
  split
  · rename_i ls heq
    split
    · exact ⟨rfl, Or.inl rfl⟩
    · split
      · exact ⟨rfl, Or.inr rfl⟩
      · rename_i hneg
        exact absurd ⟨hcool, hforce⟩ hneg
  · rename_i heq
    rw [show ({ s with last_target_trv := some t } : State).last_set = s.last_set from rfl,
        hls] at heq
    exact Option.noConfusion heq

theorem control_acts (cfg : Config) (room target : ℚ) (inp : Inputs) (s : State) :
    (handleActiveControl cfg room target inp s).2 = [] ∨
    ((handleActiveControl cfg room target inp s).2 =
        [(activeCandidate cfg room target inp s).2] ∧
     (handleActiveControl cfg room target inp s).1.last_set =
        some (activeCandidate cfg room target inp s).2 ∧
     (handleActiveControl cfg room target inp s).1.last_change = inp.now ∧
     (handleActiveControl cfg room target inp s).1.force_next_control = false) := by
  unfold handleActiveControl
  try dsimp only
  exact suppress_acts cfg room (target - room) inp.now _ _

/-- C8: two consecutive active-control evaluations whose times lie within
`cooldown_sec` of each other issue at most one actuation call, and when the
first one actuated, the second is stopped by the `skipped_no_change` or
`cooldown` suppression and issues none. -/
theorem spec_c8_cooldown_monotonicity (cfg : Config) (room1 target1 room2 target2 : ℚ)
    (inp1 inp2 : Inputs) (s : State)
    (hcool : inp2.now - inp1.now < cfg.cooldown_sec) :
    (handleActiveControl cfg room1 target1 inp1 s).2.length +
      (handleActiveControl cfg room2 target2 inp2
        (handleActiveControl cfg room1 target1 inp1 s).1).2.length ≤ 1 ∧
    ((handleActiveControl cfg room1 target1 inp1 s).2 ≠ [] →
      (handleActiveControl cfg room2 target2 inp2
        (handleActiveControl cfg room1 target1 inp1 s).1).2 = [] ∧
      ((handleActiveControl cfg room2 target2 inp2
          (handleActiveControl cfg room1 target1 inp1 s).1).1.last_action =
            ActionTag.skipped_no_change ∨
       (handleActiveControl cfg room2 target2 inp2
          (handleActiveControl cfg room1 target1 inp1 s).1).1.last_action =
            ActionTag.cooldown)) := by
  set r1 := (handleActiveControl cfg room1 target1 inp1 s).1 with hr1
  rcases control_acts cfg room1 target1 inp1 s with h1 | ⟨h1, hls, hlc, hfc⟩
  · rw [h1]
    refine ⟨?_, fun hne => absurd rfl hne⟩
    rcases control_acts cfg room2 target2 inp2 r1 with h2 | ⟨h2, _, _, _⟩ <;>
      rw [h2] <;> simp
  · have hframe := candidate_frame cfg room2 target2 inp2 r1
    have hsup := suppress_suppressed cfg room2 (target2 - room2) inp2.now
      (activeCandidate cfg room2 target2 inp2 r1).2
      (activeCandidate cfg room2 target2 inp2 r1).1
      (activeCandidate cfg room1 target1 inp1 s).2
      (by rw [hframe.1, hls])
      (by rw [hframe.2.2, hfc])
      (by rw [hframe.2.1, hlc]; exact hcool)
    have h2 : handleActiveControl cfg room2 target2 inp2 r1 =
        activeSuppress cfg room2 (target2 - room2) inp2.now
          (activeCandidate cfg room2 target2 inp2 r1).2
          (activeCandidate cfg room2 target2 inp2 r1).1 := rfl
    rw [h1, h2]
    exact ⟨by rw [hsup.1]; simp, fun _ => ⟨hsup.1, hsup.2⟩⟩

theorem spec_c8_cooldown_monotonicity_witness :
    (handleActiveControl cfgDefault 20 22 inpC7 initState).2.length +
      (handleActiveControl cfgDefault 20 22 { inpC7 with now := 1100 }
        (handleActiveControl cfgDefault 20 22 inpC7 initState).1).2.length ≤ 1 := by
  have h := spec_c8_cooldown_monotonicity cfgDefault 20 22 20 22 inpC7
    { inpC7 with now := 1100 } initState (by norm_num [cfgDefault, inpC7])
  exact h.1

theorem stable_ls (cfg : Config) (room target : ℚ) (inp : Inputs) (s : State) :
    (handleStableLearning cfg room target inp s).last_set = s.last_set := by
  unfold handleStableLearning resetStabilityTracking
  try dsimp only
  repeat' split
  all_goals rfl

theorem getSensorData_ok (cfg : Config) (inp : Inputs) (room : ℚ)
    (hc : inp.climate_present = true) (hr : inp.room_reading = some (some room)) :
    getSensorData cfg inp = Except.ok (room, cfg.room_target) := by
  unfold getSensorData
  rw [hc, hr]
  norm_num

theorem windowCondition_closed (cfg : Config) (inp : Inputs) (s : State)
    (hw : inp.window_states.any isOpenState = false) :
    handleWindowCondition cfg inp s = (false, { s with window_is_open := false }, []) := by
  unfold handleWindowCondition
  rw [hw]
  norm_num

theorem boostCondition_off (cfg : Config) (inp : Inputs) (s : State)
    (hb : s.boost_active = false ∨ s.boost_until ≤ inp.now) :
    handleBoostCondition cfg inp s = (false, s, []) := by
  unfold handleBoostCondition
  rw [if_pos hb]

theorem windowCondition_open_sent_ls (cfg : Config) (inp : Inputs) (s : State)
    (hw : inp.window_states.any isOpenState = true)
    (hstep : 1/100 + eps9 ≤ cfg.step_min)
    (hss : shouldSend s.last_set cfg.trv_min cfg.step_min = true) :
    (handleWindowCondition cfg inp s).2.1.last_set = some cfg.trv_min := by
  unfold handleWindowCondition cancelBoost setTrvTemperature
  rw [hw]
  try dsimp only
  repeat' split
  all_goals try rfl
  all_goals simp_all [shouldSend, eps9]
  all_goals linarith

theorem windowCondition_open_state (cfg : Config) (inp : Inputs) (s : State)
    (hw : inp.window_states.any isOpenState = true) :
    (handleWindowCondition cfg inp s).1 = true ∧
    (handleWindowCondition cfg inp s).2.1.boost_active = false ∧
    (handleWindowCondition cfg inp s).2.1.boost_until = 0 ∧
    (handleWindowCondition cfg inp s).2.1.last_target_trv = some cfg.trv_min ∧
    (handleWindowCondition cfg inp s).2.1.last_action = ActionTag.window_open ∧
    (handleWindowCondition cfg inp s).2.1.stuck_bias = 0 ∧
    (handleWindowCondition cfg inp s).2.1.stable_since = s.stable_since := by
  unfold handleWindowCondition cancelBoost setTrvTemperature
  rw [hw]
  try dsimp only
  repeat' split
  all_goals first
    | exact ⟨rfl, rfl, rfl, rfl, rfl, rfl, rfl⟩
    | simp_all

theorem windowCondition_open_sent (cfg : Config) (inp : Inputs) (s : State)
    (hw : inp.window_states.any isOpenState = true)
    (hstep : 1/100 + eps9 ≤ cfg.step_min)
    (hss : shouldSend s.last_set cfg.trv_min cfg.step_min = true) :
    (handleWindowCondition cfg inp s).2.2 = [cfg.trv_min] := by
  unfold handleWindowCondition cancelBoost setTrvTemperature
  rw [hw]
  try dsimp only
  repeat' split
  all_goals try rfl
  all_goals simp_all [shouldSend, eps9]
  all_goals linarith

theorem windowCondition_open_skip (cfg : Config) (inp : Inputs) (s : State)
    (hw : inp.window_states.any isOpenState = true)
    (hss : shouldSend s.last_set cfg.trv_min cfg.step_min = false) :
    (handleWindowCondition cfg inp s).2.2 = [] := by
  unfold handleWindowCondition cancelBoost setTrvTemperature
  rw [hw]
  try dsimp only
  repeat' split
  all_goals try rfl
  all_goals simp_all
theorem tick_window_eq (cfg : Config) (inp : Inputs) (s : State) (room : ℚ)
    (hc : inp.climate_present = true) (hr : inp.room_reading = some (some room))
    (hw : inp.window_states.any isOpenState = true) :
    tick cfg inp s =
      ⟨postPrev room inp.now
        (handleWindowCondition cfg inp
          { s with last_error := some (round3 (cfg.room_target - room)) }).2.1,
       (handleWindowCondition cfg inp
          { s with last_error := some (round3 (cfg.room_target - room)) }).2.2,
       true⟩ := by
  unfold tick
  rw [getSensorData_ok cfg inp room hc hr]
  try dsimp only
  rw [if_pos (windowCondition_open_state cfg inp _ hw).1]

theorem deadband_hold (cfg : Config) (room target : ℚ) (inp : Inputs) (s : State)
    (v : ℚ) (he : absQ (target - room) ≤ cfg.deadband)
    (ht : s.last_room_target = some target) (hs : s.last_set = some v) :
    (handleDeadband cfg room target inp s cfg.deadband).1 = true ∧
    (handleDeadband cfg room target inp s cfg.deadband).2.2 = [] ∧
    (handleDeadband cfg room target inp s cfg.deadband).2.1.last_set = some v := by
  unfold handleDeadband
  rw [if_neg (not_lt.mpr he)]
  try dsimp only
  rw [ht]
  try dsimp only
  have htc : decide (eps9 < absQ (target - target)) = false := by
    rw [decide_eq_false_iff_not]
    unfold absQ eps9
    norm_num
  rw [htc]
  have hcond : ¬ ((false = true) ∨ s.last_set = none) := by
    push_neg
    refine ⟨by simp, ?_⟩
    rw [hs]
    simp
  rw [if_neg hcond]
  refine ⟨rfl, rfl, ?_⟩
  rw [stable_ls]
  show s.last_set = some v
  exact hs

/-- C3 (amended): on any tick with resolvable inputs and an open window —
regardless of the temperature error — boost is cancelled, the target setpoint
becomes the configured minimum device temperature (actuated unless within
`step_min` of the last commanded value), the action tag is `window_open` and
the stuck bias is reset; stability tracking is left unchanged. -/
theorem spec_c3_window_priority (cfg : Config) (inp : Inputs) (s : State) (room : ℚ)
    (hc : inp.climate_present = true) (hr : inp.room_reading = some (some room))
    (hw : inp.window_states.any isOpenState = true)
    (hstep : 1/100 + eps9 ≤ cfg.step_min) :
    (tick cfg inp s).state.boost_active = false ∧
    (tick cfg inp s).state.boost_until = 0 ∧
    (tick cfg inp s).state.last_target_trv = some cfg.trv_min ∧
    (tick cfg inp s).state.last_action = ActionTag.window_open ∧
    (tick cfg inp s).state.stuck_bias = 0 ∧
    (tick cfg inp s).acts =
      (if shouldSend s.last_set cfg.trv_min cfg.step_min then [cfg.trv_min] else []) ∧
    (tick cfg inp s).state.stable_since = s.stable_since := by
  rw [tick_window_eq cfg inp s room hc hr hw]
  have hst := windowCondition_open_state cfg inp
    { s with last_error := some (round3 (cfg.room_target - room)) } hw
  refine ⟨hst.2.1, hst.2.2.1, hst.2.2.2.1, hst.2.2.2.2.1, hst.2.2.2.2.2.1, ?_,
    hst.2.2.2.2.2.2⟩
  rcases hss : shouldSend s.last_set cfg.trv_min cfg.step_min with _ | _
  · rw [if_neg (by simp [hss])]
    exact windowCondition_open_skip cfg inp _ hw hss
  · rw [if_pos (by simp [hss])]
    exact windowCondition_open_sent cfg inp _ hw hstep hss

theorem spec_c3_window_priority_witness :
    (tick cfgDefault inpC3 sC3).state.last_action = ActionTag.window_open ∧
    (tick cfgDefault inpC3 sC3).state.boost_active = false ∧
    (tick cfgDefault inpC3 sC3).acts = [12] := by
  have h := spec_c3_window_priority cfgDefault inpC3 sC3 20 rfl rfl (by decide)
    (by norm_num [cfgDefault, eps9])
  refine ⟨h.2.2.2.1, h.1, ?_⟩
  have hss : shouldSend sC3.last_set cfgDefault.trv_min cfgDefault.step_min = true := by
    norm_num [shouldSend, sC3, initState, cfgDefault, absQ, eps9]
  rw [h.2.2.2.2.2.1, if_pos (by simp [hss])]
  norm_num [cfgDefault]

/-- C3 (counterexample): with a window open and stability tracking armed
(`stable_since = some 5`), the tick does everything the claim says except
resetting the stability tracking: `stable_since` stays `some 5`, so the
claim's conjunction is false. -/
theorem spec_c3_counterexample :
    ¬ ((tick cfgDefault inpC3 sC3).state.boost_active = false ∧
       (tick cfgDefault inpC3 sC3).state.last_target_trv = some cfgDefault.trv_min ∧
       (tick cfgDefault inpC3 sC3).state.last_action = ActionTag.window_open ∧
       (tick cfgDefault inpC3 sC3).state.stuck_bias = 0 ∧
       (tick cfgDefault inpC3 sC3).state.stable_since = none) := by
  intro h
  have heq : (tick cfgDefault inpC3 sC3).state.stable_since = some 5 := by
    rw [tick_window_eq cfgDefault inpC3 sC3 20 rfl rfl (by decide)]
    have hst := windowCondition_open_state cfgDefault inpC3
      { sC3 with last_error := some (round3 (cfgDefault.room_target - 20)) } (by decide)
    show (handleWindowCondition cfgDefault inpC3 _).2.1.stable_since = some 5
    rw [hst.2.2.2.2.2.2]
    rfl
  rw [heq] at h
  exact Option.noConfusion h.2.2.2.2

/-- C4 (amended): a tick with resolvable inputs, no open window, boost
inactive or expired, `|target − room| ≤ deadband`, an unchanged target and an
already-commanded setpoint issues no actuation and leaves the commanded
setpoint unchanged. -/
theorem spec_c4_deadband_hold (cfg : Config) (inp : Inputs) (s : State) (room v : ℚ)
    (hc : inp.climate_present = true) (hr : inp.room_reading = some (some room))
    (hw : inp.window_states.any isOpenState = false)
    (hb : s.boost_active = false ∨ s.boost_until ≤ inp.now)
    (he : absQ (cfg.room_target - room) ≤ cfg.deadband)
    (ht : s.last_room_target = some cfg.room_target)
    (hs : s.last_set = some v) :
    (tick cfg inp s).acts = [] ∧ (tick cfg inp s).state.last_set = some v := by
  unfold tick
  rw [getSensorData_ok cfg inp room hc hr]
  try dsimp only
  rw [windowCondition_closed cfg inp _ hw]
  try dsimp only
  have hb2 : ({ { s with last_error := some (round3 (cfg.room_target - room)) } with
      window_is_open := false } : State).boost_active = false ∨
      ({ { s with last_error := some (round3 (cfg.room_target - room)) } with
        window_is_open := false } : State).boost_until ≤ inp.now := hb
  rw [boostCondition_off cfg inp _ hb2]
  try dsimp only
  have hd := deadband_hold cfg room cfg.room_target inp
    { { s with last_error := some (round3 (cfg.room_target - room)) } with
        window_is_open := false } v he ht hs
  rw [if_pos hd.1]
  exact ⟨hd.2.1, hd.2.2⟩

theorem spec_c4_deadband_hold_witness :
    (tick cfgDefault ⟨true, some (some 22), [], 1, 500⟩ sC4).acts = [] ∧
    (tick cfgDefault ⟨true, some (some 22), [], 1, 500⟩ sC4).state.last_set = some 22 := by
  refine spec_c4_deadband_hold cfgDefault ⟨true, some (some 22), [], 1, 500⟩ sC4 22 22
    rfl rfl rfl (Or.inl rfl) ?_ rfl rfl
  norm_num [absQ, cfgDefault]

/-- C4 (counterexample): a tick satisfying all three of the claim's
conditions (error inside the deadband, target unchanged, setpoint already
commanded) but with a window open issues an actuation to `trv_min = 12`,
changing the commanded setpoint from 22 to 12 — the claim as stated is
false. -/
theorem spec_c4_counterexample :
    absQ (cfgDefault.room_target - 22) ≤ cfgDefault.deadband ∧
    sC4.last_room_target = some cfgDefault.room_target ∧
    sC4.last_set = some 22 ∧
    (tick cfgDefault inpC4 sC4).acts = [12] ∧
    (tick cfgDefault inpC4 sC4).state.last_set = some 12 := by
  refine ⟨by norm_num [absQ, cfgDefault], rfl, rfl, ?_, ?_⟩
  · rw [tick_window_eq cfgDefault inpC4 sC4 22 rfl rfl (by decide)]
    have hss : shouldSend sC4.last_set cfgDefault.trv_min cfgDefault.step_min = true := by
      norm_num [shouldSend, sC4, initState, cfgDefault, absQ, eps9]
    have := windowCondition_open_sent cfgDefault inpC4
      { sC4 with last_error := some (round3 (cfgDefault.room_target - 22)) } (by decide)
      (by norm_num [cfgDefault, eps9]) hss
    rw [this]
    norm_num [cfgDefault]
  · rw [tick_window_eq cfgDefault inpC4 sC4 22 rfl rfl (by decide)]
    show (handleWindowCondition cfgDefault inpC4 _).2.1.last_set = some 12
    have hss : shouldSend sC4.last_set cfgDefault.trv_min cfgDefault.step_min = true := by
      norm_num [shouldSend, sC4, initState, cfgDefault, absQ, eps9]
    rw [windowCondition_open_sent_ls cfgDefault inpC4
      { sC4 with last_error := some (round3 (cfgDefault.room_target - 22)) } (by decide)
      (by norm_num [cfgDefault, eps9]) hss]
    norm_num [cfgDefault]

/-- C2 (amended): the controller's tick reads the single configured
`room_sensor_entity` — its room temperature is exactly that sensor's parse
result; the arithmetic mean over the configured sensor list (invalid and
unavailable readings excluded rather than treated as zero, `none` only when
no sensor yields a valid value) is computed by the virtual climate entity's
`_get_room_temperature`. -/
theorem spec_c2_room_temperature :
    (∀ (read : String → Option (Option ℚ)) (rs : String) (cfg : Config)
        (ws : List (Option String)) (m : ℕ) (now : ℚ),
      tickRoomTemp cfg (controllerInputs read rs true ws m now) = (read rs).bind id) ∧
    (∀ readings : List (Option (Option ℚ)),
      getRoomTemperature readings =
        if (readings.filterMap (fun r => r.bind id)) = [] then none
        else some ((readings.filterMap (fun r => r.bind id)).sum /
          ((readings.filterMap (fun r => r.bind id)).length : ℚ))) := by
  constructor
  · intro read rs cfg ws m now
    cases hrr : read rs with
    | none => simp [tickRoomTemp, getSensorData, controllerInputs, hrr]
    | some mv => cases mv <;> simp [tickRoomTemp, getSensorData, controllerInputs, hrr]
  · intro readings
    unfold getRoomTemperature
    rcases readings with _ | ⟨a, as⟩
    · simp
    · rw [if_neg (by simp : ¬ (a :: as : List (Option (Option ℚ))) = [])]

/-- C2 (counterexample): with two configured room sensors reading 20 and 30
and the controller's single `room_sensor_entity` pointing at the first, the
tick's room temperature is 20, not the 25 the claim's mean would give; and
with the controller's sensor entity missing, the tick fails with a
missing-input tag even though a configured sensor yields a valid value. -/
theorem spec_c2_counterexample :
    tickRoomTemp cfgC2 (controllerInputs readC2 "s1" true [] 1 100) = some 20 ∧
    specRoomTemperature readC2 sensorsC2 = some 25 ∧
    tickRoomTemp cfgC2 (controllerInputs readC2 "s1" true [] 1 100) ≠
      specRoomTemperature readC2 sensorsC2 ∧
    (tick cfgC2 (controllerInputs readC2 "s1" true [] 1 100) sC2).state.last_error =
      some 0 ∧
    getSensorData cfgC2 (controllerInputs readC2 "s3" true [] 1 100) =
      Except.error ActionTag.skipped_unavailable_entities := by
  have hf0 : Rat.floor (0:ℚ) = 0 := ratFloorEq _ 0 (by norm_num) (by norm_num)
  have hf40 : Rat.floor (40:ℚ) = 40 := ratFloorEq _ 40 (by norm_num) (by norm_num)
  have hs1 : readC2 "s1" = some (some 20) := by decide
  have hs2 : readC2 "s2" = some (some 30) := by decide
  have hs3 : readC2 "s3" = none := by decide
  have hne : ((some (21:ℚ) = (none : Option ℚ))) = False := by simp
  refine ⟨?_, ?_, ?_, ?_, ?_⟩
  · norm_num [tickRoomTemp, getSensorData, controllerInputs, hs1]
  · norm_num [specRoomTemperature, getRoomTemperature, sensorsC2, hs1, hs2,
      List.filterMap_cons, Option.bind]
    exact ⟨by simp, fun h => absurd h (by simp)⟩
  · norm_num [tickRoomTemp, getSensorData, controllerInputs, hs1,
      specRoomTemperature, getRoomTemperature, sensorsC2, hs2,
      List.filterMap_cons, Option.bind]
  · norm_num [tick, getSensorData, handleWindowCondition, handleBoostCondition,
      handleDeadband, handleStableLearning, postPrev, cancelBoost,
      resetStabilityTracking, shouldSend, isOpenState, clampQ, maxQ, minQ, absQ,
      roundStep, pyRound, round3, eps9, controllerInputs, hs1, cfgC2,
      cfgDefault, sC2, initState, setTrvTemperature, hf0, hf40, hne]
  · norm_num [getSensorData, controllerInputs, hs3]

theorem spec_c10_boost_duration_witness :
    (startBoost cfgC10 100 initState).boost_active = true ∧
    (startBoost cfgC10 100 initState).boost_until = 100 + 30 := by
  have h := spec_c10_boost_duration cfgC10 100 initState
  exact ⟨h.1, h.2.2.1 20 rfl (by norm_num) (by norm_num)⟩

end SOT
